/-
  Verification of the uk-mountain-tours-analytics pipeline.

  Shallow embedding of the synthetic-data generation and analytics code:
  * src/synth/generate_routes.py   (stable key-to-unit hash, dim_route builder)
  * src/synth/generate_bookings.py (booking simulation engine)
  * src/ml/features.py             (2026 scoring scaffold)
  * src/ml/features_v2.py          (v2 feature layer with its own stable hash)
  * src/ml/predict_2026.py         (forecast clamping)
  * src/transform/build_model_tables.py (route-day aggregation)
  * src/transform/clean_bank_holidays.py (bank-holiday dimension)

  Python floats are modelled as exact rationals (ℚ); 32-bit integer
  wrap-around is modelled with explicit `% 2^32`; numpy's seeded random
  generator is modelled as an abstract state machine `RNG σ` so that
  theorems quantify over every possible sequence of draws; fallible code
  returns `Except String`.
-/
import Mathlib

namespace UkTours

/-! ## Basic numeric helpers -/

/-- Model of `np.clip(x, lo, hi)`: `min (max x lo) hi`. -/
def clip (x lo hi : ℚ) : ℚ := min (max x lo) hi

/-- Floor of a rational, written directly on the numerator/denominator so
    that it evaluates by kernel reduction (`Int` division floors because the
    denominator is positive); equal to `Int.floor` by `Rat.floor_def`. -/
def ratFloor (x : ℚ) : ℤ := x.num / (x.den : ℤ)

theorem ratFloor_eq (x : ℚ) : ratFloor x = ⌊x⌋ := Rat.floor_def.symm

/-- Round-to-nearest on ℚ (ties up), executable. -/
def roundQ (x : ℚ) : ℤ := ratFloor (x + 1 / 2)

theorem roundQ_eq (x : ℚ) : roundQ x = round x := by
  rw [roundQ, ratFloor_eq, round_eq]

/-- Model of Python `round(x, n)`: round to `n` decimal places.
    (Tie-breaking is modelled as round-half-up; every claim proved below is
    insensitive to the tie-breaking direction.) -/
def roundDp (n : ℕ) (x : ℚ) : ℚ := (roundQ (x * 10 ^ n) : ℤ) / (10 ^ n : ℚ)

theorem clip_le_hi (x lo hi : ℚ) : clip x lo hi ≤ hi := min_le_right _ _

theorem lo_le_clip (x lo hi : ℚ) (h : lo ≤ hi) : lo ≤ clip x lo hi :=
  le_min (le_max_right _ _) h

theorem round_mono_q {x y : ℚ} (h : x ≤ y) : round x ≤ round y := by
  rw [round_eq, round_eq]
  exact Int.floor_le_floor (by linarith)

theorem roundDp_le_of_le {n : ℕ} {x b : ℚ} (hb : (b * 10 ^ n : ℚ) = ((⌊b * 10 ^ n⌋ : ℤ) : ℚ))
    (h : x ≤ b) : roundDp n x ≤ b := by
  unfold roundDp
  rw [roundQ_eq, div_le_iff₀ (by positivity), hb]
  have h1 : round (x * 10 ^ n) ≤ round ((⌊b * 10 ^ n⌋ : ℤ) : ℚ) := by
    apply round_mono_q
    rw [← hb]
    have : (0:ℚ) < 10 ^ n := by positivity
    exact mul_le_mul_of_nonneg_right h (le_of_lt this)
  rw [round_intCast] at h1
  exact_mod_cast h1

theorem le_roundDp_of_le {n : ℕ} {x a : ℚ} (ha : (a * 10 ^ n : ℚ) = ((⌊a * 10 ^ n⌋ : ℤ) : ℚ))
    (h : a ≤ x) : a ≤ roundDp n x := by
  unfold roundDp
  rw [roundQ_eq, le_div_iff₀ (by positivity), ha]
  have h1 : round ((⌊a * 10 ^ n⌋ : ℤ) : ℚ) ≤ round (x * 10 ^ n) := by
    apply round_mono_q
    rw [← ha]
    have : (0:ℚ) < 10 ^ n := by positivity
    exact mul_le_mul_of_nonneg_right h (le_of_lt this)
  rw [round_intCast] at h1
  exact_mod_cast h1

theorem abs_roundDp_sub (n : ℕ) (x : ℚ) : |roundDp n x - x| ≤ 1 / 2 / 10 ^ n := by
  have h10 : (0:ℚ) < 10 ^ n := by positivity
  have h := abs_sub_round (x * 10 ^ n)
  have key : roundDp n x - x = -((x * 10 ^ n - round (x * 10 ^ n)) / 10 ^ n) := by
    unfold roundDp
    rw [roundQ_eq]
    field_simp
    ring
  rw [key, abs_neg, abs_div, abs_of_pos h10]
  exact div_le_div_of_nonneg_right h h10.le


/-! ## Dates

The Python code manipulates `datetime.date` values parsed from the CSV
`date` column and compares them (string / timestamp comparison in the
filters, value equality in the closed-day sets).  We model a date as a
`(year, month, day)` triple with lexicographic order. -/

structure Date where
  y : Int
  m : Int
  d : Int
deriving DecidableEq, Repr, Inhabited

/-- Lexicographic `≤` on dates (matches chronological comparison of
    ISO-formatted date values for calendar dates). -/
def dateLe (a b : Date) : Bool :=
  if a.y ≠ b.y then a.y < b.y
  else if a.m ≠ b.m then a.m < b.m
  else a.d ≤ b.d

/-! ## Deterministic key-to-unit hash

`_stable_hash_to_unit` (src/synth/generate_routes.py) and `_stable_unit`
(src/ml/features_v2.py) both hash the UTF-8 bytes of a string. -/

/-- UTF-8 encoding of a single code point (the byte sequence produced by
    Python `str.encode("utf-8")` for that character). -/
def utf8EncodeCharBytes (c : Char) : List ℕ :=
  let n := c.toNat
  if n < 0x80 then [n]
  else if n < 0x800 then
    [0xC0 + n / 0x40, 0x80 + n % 0x40]
  else if n < 0x10000 then
    [0xE0 + n / 0x1000, 0x80 + (n / 0x40) % 0x40, 0x80 + n % 0x40]
  else
    [0xF0 + n / 0x40000, 0x80 + (n / 0x1000) % 0x40, 0x80 + (n / 0x40) % 0x40, 0x80 + n % 0x40]

/-- Model of Python `x.encode("utf-8")` as a list of byte values. -/
def utf8Bytes (s : String) : List ℕ :=
  (s.data.map utf8EncodeCharBytes).flatten

/-- Embedding of `_stable_hash_to_unit` from src/synth/generate_routes.py:
    `h = 2166136261; for ch in x.encode("utf-8"): h ^= ch; h *= 16777619;
    h &= 0xFFFFFFFF; return (h % 10_000_000) / 10_000_000.0`
    (`& 0xFFFFFFFF` is `% 2^32`). -/
def _stable_hash_to_unit (x : String) : ℚ :=
  let h := (utf8Bytes x).foldl (fun h ch => ((h ^^^ ch) * 16777619) % 4294967296) 2166136261
  ((h % 10000000 : ℕ) : ℚ) / 10000000

/-- Embedding of `_stable_unit` from src/ml/features_v2.py:
    `h = 2166136261; for b in seed.encode("utf-8"): h ^= b;
    h = (h * 16777619) & 0xFFFFFFFF; return (h % 10_000_000) / 10_000_000.0`. -/
def _stable_unit (seed : String) : ℚ :=
  let h := (utf8Bytes seed).foldl (fun h b => ((h ^^^ b) * 16777619) % 4294967296) 2166136261
  ((h % 10000000 : ℕ) : ℚ) / 10000000

/-- Reference definition following the specification text (section 4.1):
    a 32-bit FNV-1a-style rolling hash, initial value 2166136261, per byte
    XOR-then-multiply by 16777619 masked to 32 bits, written as an explicit
    recursion rather than a fold. -/
def fnv1a32Spec : List ℕ → ℕ → ℕ
  | [], h => h
  | b :: bs, h => fnv1a32Spec bs (((h ^^^ b) * 16777619) % 2 ^ 32)

/-- Reference definition following the specification text: the hash of the
    key's UTF-8 bytes, taken `mod 10,000,000`, divided by `10,000,000`. -/
def hash_to_unit_spec (key : String) : ℚ :=
  ((fnv1a32Spec (utf8Bytes key) 2166136261 % 10000000 : ℕ) : ℚ) / 10000000

theorem foldl_eq_fnvSpec (bs : List ℕ) (h : ℕ) :
    bs.foldl (fun h ch => ((h ^^^ ch) * 16777619) % 4294967296) h = fnv1a32Spec bs h := by
  induction bs generalizing h with
  | nil => rfl
  | cons b bs ih => simpa [fnv1a32Spec] using ih _

/-! ## Data model (rows of the tables the claims are about) -/

/-- Row of `dim_route.csv` (the columns read by the booking engine and the
    scoring scaffold: `route_id`, `region`, `difficulty`, `duration_hours`,
    `distance_km`). -/
structure RouteRow where
  route_id : Int
  region : String
  difficulty : String
  duration_hours : ℚ
  distance_km : ℚ
deriving DecidableEq, Repr, Inhabited

/-- Row of `dim_guide.csv` (only `guide_id` is read). -/
structure GuideRow where
  guide_id : Int
deriving DecidableEq, Repr, Inhabited

/-- Row of `dim_date.csv` (the columns read by the booking engine and the
    feature layer). -/
structure DateRow where
  date : Date
  date_key : Int
  year : Int
  quarter : Int
  month : Int
  iso_week : Int
  day_name : String
  is_weekend : Bool
  season : String
  is_bank_holiday_england_wales : Bool
  is_bank_holiday_scotland : Bool
  is_bank_holiday_northern_ireland : Bool
  is_bank_holiday_any : Bool
deriving DecidableEq, Repr, Inhabited

/-- Row of `dim_bank_holiday.csv` (the columns read by the closed-day
    resolver: `date`, `division`, `title`). -/
structure BHRow where
  date : Date
  division : String
  title : String
deriving DecidableEq, Repr, Inhabited

/-- Row of the generated `fact_bookings_2024_2025.csv` (exactly the dict
    appended in `generate_fact_bookings`). -/
structure Booking where
  booking_id : ℕ
  booking_date : Date
  date_key : Int
  route_id : Int
  region : String
  guide_id : Int
  party_size : ℕ
  difficulty : String
  duration_hours : ℚ
  discount_flag : Int
  discount_pct : ℚ
  price_per_person_ex_vat : ℚ
  sales_ex_vat : ℚ
  vat_amount : ℚ
  sales_inc_vat : ℚ
  staff_cost : ℚ
  margin_amount : ℚ
  margin_pct : ℚ
  season : String
  is_weekend : Int
  is_bank_holiday : Int
  holiday_division : String
deriving DecidableEq, Repr, Inhabited

/-! ## Constants from src/config.py and src/synth/generate_bookings.py -/

/-- `VAT_RATE = 0.20` from src/config.py. -/
def VAT_RATE : ℚ := 0.20

/-- Apostrophe character (U+0027), built by code point to keep string
    literals plain. -/
def apostrophe : String := String.singleton (Char.ofNat 39)

/-- Right single quotation mark (U+2019), as it appears in the source
    keyword tuple. -/
def rightQuote : String := String.singleton (Char.ofNat 8217)

/-- `CLOSED_HOLIDAY_KEYWORDS` from src/synth/generate_bookings.py (the same
    tuple is repeated in src/ml/features.py and src/ml/features_v2.py). -/
def CLOSED_HOLIDAY_KEYWORDS : List String :=
  [ "Christmas Day"
  , "Boxing Day"
  , "New Year"
  , "New Year" ++ apostrophe ++ "s Day"
  , "New Year" ++ rightQuote ++ "s Day"
  , "Good Friday"
  , "Easter Monday" ]

/-- `REGION_UPLIFT` demand-uplift table. -/
def REGION_UPLIFT : List (String × ℚ) :=
  [("lake_district", 1.35), ("wales", 1.15), ("peak_district", 1.00), ("scotland", 0.90)]

/-- `SEASON_UPLIFT` demand-uplift table. -/
def SEASON_UPLIFT : List (String × ℚ) :=
  [("winter", 1.30), ("spring", 1.00), ("summer", 0.85), ("autumn", 1.10)]

/-- `DIFFICULTY_UPLIFT` demand-uplift table. -/
def DIFFICULTY_UPLIFT : List (String × ℚ) :=
  [("easy", 1.20), ("moderate", 1.00), ("hard", 0.90), ("severe", 0.75)]

/-- `WEEKEND_UPLIFT = 1.20`. -/
def WEEKEND_UPLIFT : ℚ := 1.20

/-- `BANK_HOLIDAY_OPEN_UPLIFT = 1.40`. -/
def BANK_HOLIDAY_OPEN_UPLIFT : ℚ := 1.40

/-- Model of Python `dict.get(key, default)` over a literal table with
    distinct keys. -/
def lookupD (table : List (String × ℚ)) (key : String) (dflt : ℚ) : ℚ :=
  (((table.find? (fun p => p.1 = key)).map Prod.snd).getD dflt)

/-- Model of `dict(zip(region_div["region"], region_div["division"])).get(region,
    "england-and-wales")`: a Python dict built from pairs keeps the LAST
    occurrence of a duplicated key, hence the lookup on the reversed list. -/
def regionToDivision (region_div : List (String × String)) (region : String) : String :=
  ((((region_div.reverse).find? (fun p => p.1 = region)).map Prod.snd).getD "england-and-wales")

/-! ## Closed-day resolver (`_build_closed_dates_by_division`) -/

/-- Case-insensitive substring containment, the model of
    `Series.str.contains(kw, case=False)` for the literal keywords used here
    (none contains a regex metacharacter). -/
def containsCI (title kw : String) : Bool :=
  decide (List.IsInfix (kw.toLower.data) (title.toLower.data))

/-- Title filter of `_build_closed_dates_by_division`: the or-reduction of
    the per-keyword `str.contains` masks. -/
def titleIsClosing (title : String) : Bool :=
  CLOSED_HOLIDAY_KEYWORDS.any (fun kw => containsCI title kw)

/-- Embedding of `_build_closed_dates_by_division(bh)[division]` (with the
    `.get(division, set())` default): the dates of the keyword-matching
    bank-holiday rows of that division.  Membership in this list is
    membership in the Python per-division closed-day set. -/
def closedDatesForDivision (bh : List BHRow) (division : String) : List Date :=
  ((bh.filter (fun r => titleIsClosing r.title)).filter
    (fun r => r.division = division)).map (fun r => r.date)

/-! ## The seeded random generator, abstractly

`np.random.default_rng(RANDOM_SEED)` is modelled as an arbitrary state
machine: a state type `σ` and one transition per sampling method used by
the engine.  All booking-engine theorems hold for EVERY implementation,
i.e. for every possible sequence of draws. -/

structure RNG (σ : Type) where
  poisson : ℚ → σ → ℕ × σ
  uniform : ℚ → ℚ → σ → ℚ × σ
  normal : ℚ → ℚ → σ → ℚ × σ
  random : σ → ℚ × σ
  choice6 : List ℚ → σ → Fin 6 × σ
  choiceIdx : ℕ → σ → ℕ × σ

/-- Model of `rng.choice(guide_ids)`: numpy raises `ValueError: a cannot be
    empty` on an empty candidate list, otherwise returns one element. -/
def pickGuide {σ : Type} (g : RNG σ) (ids : List Int) (s : σ) : Except String (Int × σ) :=
  match ids with
  | [] => Except.error "a cannot be empty"
  | x :: xs =>
    let r := g.choiceIdx (x :: xs).length s
    Except.ok ((x :: xs).getD (r.1 % (x :: xs).length) x, r.2)

/-! ## Booking simulation engine (src/synth/generate_bookings.py) -/

/-- Embedding of `_price_per_person_ex_vat`. -/
def _price_per_person_ex_vat {σ : Type} (g : RNG σ) (duration_hours : ℚ)
    (difficulty : String) (s : σ) : ℚ × σ :=
  let base := 75.0 + duration_hours * 8.0
  let diff_mult := lookupD
    [("easy", 0.95), ("moderate", 1.00), ("hard", 1.10), ("severe", 1.20)] difficulty 1.00
  let noise := g.normal 1.0 0.06 s
  let val := base * diff_mult * noise.1
  (clip val 60.0 190.0, noise.2)

/-- Embedding of `_party_size`: the categorical probability table is chosen
    by difficulty and the draw returns one of the sizes 1..6. -/
def _party_size {σ : Type} (g : RNG σ) (difficulty : String) (s : σ) : ℕ × σ :=
  let probs :=
    if difficulty = "easy" then [0.10, 0.25, 0.25, 0.20, 0.12, 0.08]
    else if difficulty = "moderate" then [0.15, 0.28, 0.25, 0.17, 0.10, 0.05]
    else if difficulty = "hard" then [0.22, 0.33, 0.23, 0.13, 0.07, 0.02]
    else [0.30, 0.38, 0.20, 0.08, 0.03, 0.01]
  let r := g.choice6 probs s
  (r.1.val + 1, r.2)

/-- Embedding of `_discount_flag_and_pct`. -/
def _discount_flag_and_pct {σ : Type} (g : RNG σ) (party_size : ℕ) (season : String)
    (is_weekend : Bool) (s : σ) : (Bool × ℚ) × σ :=
  let base_prob : ℚ := 0.10
  let base_prob := if party_size ≥ 4 then base_prob + 0.10 else base_prob
  let base_prob := if season = "summer" then base_prob + 0.05 else base_prob
  let base_prob := if ¬ is_weekend then base_prob + 0.03 else base_prob
  let r := g.random s
  if r.1 < min base_prob 0.35 then
    let pct := g.uniform 0.05 0.20 r.2
    ((true, pct.1), pct.2)
  else
    ((false, 0.0), r.2)

/-- Embedding of `_margin_pct`. -/
def _margin_pct {σ : Type} (g : RNG σ) (discount_flag : Bool) (party_size : ℕ)
    (s : σ) : ℚ × σ :=
  let m0 := g.uniform 0.30 0.50 s
  let m1 :=
    if discount_flag then
      let u := g.uniform 0.03 0.08 m0.2
      (m0.1 - u.1, u.2)
    else m0
  let m2 := m1.1 + min (max ((party_size : ℚ) - 2) 0 * 0.008) 0.03
  (clip m2 0.30 0.50, m1.2)

/-- Embedding of `_expected_bookings_per_route_day`. -/
def _expected_bookings_per_route_day (region season difficulty : String)
    (is_weekend is_bank_holiday_open : Bool) : ℚ :=
  let base : ℚ := 0.55
  let mu := base
  let mu := mu * lookupD REGION_UPLIFT region 1.0
  let mu := mu * lookupD SEASON_UPLIFT season 1.0
  let mu := mu * lookupD DIFFICULTY_UPLIFT difficulty 1.0
  let mu := if is_weekend then mu * WEEKEND_UPLIFT else mu
  let mu := if is_bank_holiday_open then mu * BANK_HOLIDAY_OPEN_UPLIFT else mu
  clip mu 0.05 3.0

/-- One iteration of the inner `for _ in range(n)` body of
    `generate_fact_bookings`: draw all per-booking quantities, derive the
    monetary fields and build the output row. -/
def genOneBooking {σ : Type} (g : RNG σ) (guide_ids : List Int) (route_id : Int)
    (region difficulty : String) (duration_hours : ℚ) (dt : Date) (season : String)
    (is_weekend is_bh : Bool) (division : String) (booking_id : ℕ) (s : σ) :
    Except String (Booking × σ) :=
  let pt := _party_size g difficulty s
  let party := pt.1
  let dc := _discount_flag_and_pct g party season is_weekend pt.2
  let discount_flag := dc.1.1
  let discount_pct := dc.1.2
  let pp := _price_per_person_ex_vat g duration_hours difficulty dc.2
  let ppp := pp.1
  let list_value_ex_vat := ppp * (party : ℚ)
  let discount_value := if discount_flag then list_value_ex_vat * discount_pct else 0.0
  let sales_ex_vat := max (list_value_ex_vat - discount_value) 0.0
  let mp := _margin_pct g discount_flag party pp.2
  let margin_pct := mp.1
  let margin_amount := sales_ex_vat * margin_pct
  let total_cost := max (sales_ex_vat - margin_amount) 0.0
  let ss := g.normal 0.62 0.06 mp.2
  let staff_share := clip ss.1 0.50 0.75
  let staff_cost := total_cost * staff_share
  let vat_amount := sales_ex_vat * VAT_RATE
  let sales_inc_vat := sales_ex_vat + vat_amount
  match pickGuide g guide_ids ss.2 with
  | Except.error e => Except.error e
  | Except.ok gs =>
    Except.ok
      ({ booking_id := booking_id
       , booking_date := dt
       , date_key := dt.y * 10000 + dt.m * 100 + dt.d
       , route_id := route_id
       , region := region
       , guide_id := gs.1
       , party_size := party
       , difficulty := difficulty
       , duration_hours := roundDp 2 duration_hours
       , discount_flag := if discount_flag then 1 else 0
       , discount_pct := roundDp 4 discount_pct
       , price_per_person_ex_vat := roundDp 2 ppp
       , sales_ex_vat := roundDp 2 sales_ex_vat
       , vat_amount := roundDp 2 vat_amount
       , sales_inc_vat := roundDp 2 sales_inc_vat
       , staff_cost := roundDp 2 staff_cost
       , margin_amount := roundDp 2 margin_amount
       , margin_pct := roundDp 4 margin_pct
       , season := season
       , is_weekend := if is_weekend then 1 else 0
       , is_bank_holiday := if is_bh then 1 else 0
       , holiday_division := division }, gs.2)

/-- The inner `for _ in range(n)` loop: `n` bookings in sequence, advancing
    the generator state and the sequential `booking_id`. -/
def genBookingsN {σ : Type} (g : RNG σ) (guide_ids : List Int) (route_id : Int)
    (region difficulty : String) (duration_hours : ℚ) (dt : Date) (season : String)
    (is_weekend is_bh : Bool) (division : String) :
    ℕ → ℕ → σ → Except String (List Booking × ℕ × σ)
  | 0, booking_id, s => Except.ok ([], booking_id, s)
  | Nat.succ k, booking_id, s =>
    match genOneBooking g guide_ids route_id region difficulty duration_hours dt season
        is_weekend is_bh division booking_id s with
    | Except.error e => Except.error e
    | Except.ok bs =>
      match genBookingsN g guide_ids route_id region difficulty duration_hours dt season
          is_weekend is_bh division k (booking_id + 1) bs.2 with
      | Except.error e => Except.error e
      | Except.ok rest => Except.ok (bs.1 :: rest.1, rest.2.1, rest.2.2)

/-- The division-aware bank-holiday flag selection
    (`if division == "scotland": ... elif ...: ... else: ...`). -/
def divisionBankHolidayFlag (division : String) (d : DateRow) : Bool :=
  if division = "scotland" then d.is_bank_holiday_scotland
  else if division = "northern-ireland" then d.is_bank_holiday_northern_ireland
  else d.is_bank_holiday_england_wales

/-- One iteration of the `for _, d in dates.iterrows()` loop: resolve the
    division-aware bank-holiday flag, skip closed dates entirely, otherwise
    draw the Poisson booking count and generate that many bookings. -/
def processRouteDay {σ : Type} (g : RNG σ) (guide_ids : List Int) (route_id : Int)
    (region difficulty : String) (duration_hours : ℚ) (division : String)
    (closed_dates : List Date) (d : DateRow) (booking_id : ℕ) (s : σ) :
    Except String (List Booking × ℕ × σ) :=
  let dt := d.date
  let is_bh := divisionBankHolidayFlag division d
  if dt ∈ closed_dates then Except.ok ([], booking_id, s)
  else
    let mu := _expected_bookings_per_route_day region d.season difficulty d.is_weekend is_bh
    let pn := g.poisson mu s
    if pn.1 = 0 then Except.ok ([], booking_id, pn.2)
    else genBookingsN g guide_ids route_id region difficulty duration_hours dt d.season
      d.is_weekend is_bh division pn.1 booking_id pn.2

/-- The `for _, d in dates.iterrows()` loop over the full (filtered) date
    table for one route. -/
def processRouteDays {σ : Type} (g : RNG σ) (guide_ids : List Int) (route_id : Int)
    (region difficulty : String) (duration_hours : ℚ) (division : String)
    (closed_dates : List Date) :
    List DateRow → ℕ → σ → Except String (List Booking × ℕ × σ)
  | [], booking_id, s => Except.ok ([], booking_id, s)
  | d :: ds, booking_id, s =>
    match processRouteDay g guide_ids route_id region difficulty duration_hours division
        closed_dates d booking_id s with
    | Except.error e => Except.error e
    | Except.ok r1 =>
      match processRouteDays g guide_ids route_id region difficulty duration_hours division
          closed_dates ds r1.2.1 r1.2.2 with
      | Except.error e => Except.error e
      | Except.ok r2 => Except.ok (r1.1 ++ r2.1, r2.2.1, r2.2.2)

/-- The outer `for _, rt in routes.iterrows()` loop: resolve the route's
    holiday division and its closed-day set, then iterate the dates. -/
def processRoutes {σ : Type} (g : RNG σ) (guide_ids : List Int)
    (region_div : List (String × String)) (bh : List BHRow) (dates : List DateRow) :
    List RouteRow → ℕ → σ → Except String (List Booking × ℕ × σ)
  | [], booking_id, s => Except.ok ([], booking_id, s)
  | rt :: rts, booking_id, s =>
    let division := regionToDivision region_div rt.region
    let closed_dates := closedDatesForDivision bh division
    match processRouteDays g guide_ids rt.route_id rt.region rt.difficulty rt.duration_hours
        division closed_dates dates booking_id s with
    | Except.error e => Except.error e
    | Except.ok r1 =>
      match processRoutes g guide_ids region_div bh dates rts r1.2.1 r1.2.2 with
      | Except.error e => Except.error e
      | Except.ok r2 => Except.ok (r1.1 ++ r2.1, r2.2.1, r2.2.2)

/-- Embedding of `generate_fact_bookings`: the `_load_inputs` filter keeps
    only dates in [2024-01-01, 2025-12-31]; booking ids start at 1; the
    result is the generated fact table (the list of appended rows). -/
def generate_fact_bookings {σ : Type} (g : RNG σ) (s0 : σ) (routes : List RouteRow)
    (guides : List GuideRow) (dates_all : List DateRow) (bh : List BHRow)
    (region_div : List (String × String)) : Except String (List Booking) :=
  let dates := dates_all.filter
    (fun d => dateLe ⟨2024, 1, 1⟩ d.date && dateLe d.date ⟨2025, 12, 31⟩)
  let guide_ids := guides.map (fun gd => gd.guide_id)
  match processRoutes g guide_ids region_div bh dates routes 1 s0 with
  | Except.error e => Except.error e
  | Except.ok r => Except.ok r.1

/-! ## 2026 scoring scaffold (src/ml/features.py, `build_scoring_frame_2026`) -/

/-- Row of the enriched 2026 scaffold (the `keep`-sliced frame before
    one-hot encoding; encoding only renames/expands columns and keeps the
    rows unchanged). -/
structure ScoreRow where
  date : Date
  date_key : Int
  year : Int
  quarter : Int
  month : Int
  iso_week : Int
  day_name : String
  is_weekend : Bool
  season : String
  route_id : Int
  region : String
  difficulty : String
  distance_km : ℚ
  duration_hours : ℚ
  is_bank_holiday_england_wales : Bool
  is_bank_holiday_scotland : Bool
  is_bank_holiday_northern_ireland : Bool
  is_bank_holiday_any : Bool
  is_bank_holiday_division : Int
  is_closed_day : Int
  division : String
deriving DecidableEq, Repr, Inhabited

/-- The `d26` filter of `build_scoring_frame_2026`:
    `dim_date[(date >= "2026-01-01") & (date <= "2026-12-31")]`. -/
def dates2026 (dim_date : List DateRow) : List DateRow :=
  dim_date.filter (fun d => dateLe ⟨2026, 1, 1⟩ d.date && dateLe d.date ⟨2026, 12, 31⟩)

/-- The cartesian scaffold `d26.merge(routes, on="key", how="outer")` built
    from the constant helper key.  With both sides non-empty every left row
    matches every right row, which is exactly this product; the theorems
    about this function assume both sides non-empty, as the claim does. -/
def crossDatesRoutes (d26 : List DateRow) (routes : List RouteRow) :
    List (DateRow × RouteRow) :=
  d26.flatMap (fun d => routes.map (fun r => (d, r)))

/-- The left merge `base.merge(region_div, on="region", how="left")`
    followed by `division.fillna("england-and-wales")`: a base row is
    repeated once per matching mapping row, or kept once with the default
    division when unmatched. -/
def leftMergeDivision (base : List (DateRow × RouteRow))
    (region_div : List (String × String)) : List (DateRow × RouteRow × String) :=
  base.flatMap (fun p =>
    let ms := region_div.filter (fun m => m.1 = p.2.region)
    if ms.isEmpty then [(p.1, p.2, "england-and-wales")]
    else ms.map (fun m => (p.1, p.2, m.2)))

/-- Embedding of `build_scoring_frame_2026`: 2026 date rows × routes,
    region→division mapping with default, division-aware bank-holiday flag,
    closed-day flag from the closed-day resolver. -/
def build_scoring_frame_2026 (dim_date : List DateRow) (dim_route : List RouteRow)
    (region_div : List (String × String)) (bh : List BHRow) : List ScoreRow :=
  let d26 := dates2026 dim_date
  let base := crossDatesRoutes d26 dim_route
  let merged := leftMergeDivision base region_div
  merged.map (fun p =>
    let d := p.1
    let r := p.2.1
    let division := p.2.2
    let bhFlag :=
      if division = "scotland" then d.is_bank_holiday_scotland
      else if division = "northern-ireland" then d.is_bank_holiday_northern_ireland
      else d.is_bank_holiday_england_wales
    { date := d.date
    , date_key := d.date_key
    , year := d.year
    , quarter := d.quarter
    , month := d.month
    , iso_week := d.iso_week
    , day_name := d.day_name
    , is_weekend := d.is_weekend
    , season := d.season
    , route_id := r.route_id
    , region := r.region
    , difficulty := r.difficulty
    , distance_km := r.distance_km
    , duration_hours := r.duration_hours
    , is_bank_holiday_england_wales := d.is_bank_holiday_england_wales
    , is_bank_holiday_scotland := d.is_bank_holiday_scotland
    , is_bank_holiday_northern_ireland := d.is_bank_holiday_northern_ireland
    , is_bank_holiday_any := d.is_bank_holiday_any
    , is_bank_holiday_division := if bhFlag then 1 else 0
    , is_closed_day := if d.date ∈ closedDatesForDivision bh division then 1 else 0
    , division := division })

/-- The `keep` column list of `build_scoring_frame_2026` (all present in the
    scaffold, so the slice keeps exactly these). -/
def SCORING_KEEP : List String :=
  [ "date_key", "date", "year", "quarter", "month", "iso_week", "day_name"
  , "is_weekend", "season", "route_id", "region", "difficulty", "distance_km"
  , "duration_hours", "is_bank_holiday_england_wales", "is_bank_holiday_scotland"
  , "is_bank_holiday_northern_ireland", "is_bank_holiday_any"
  , "is_bank_holiday_division", "is_closed_day", "division" ]

/-- The categorical columns one-hot expanded by `_encode_categoricals`. -/
def CAT_COLS : List String := ["region", "difficulty", "season", "day_name"]

/-- Column names produced by `pd.get_dummies` for the scaffold: one
    `col_value` column per distinct value of each categorical column. -/
def dummyColumns (rows : List ScoreRow) : List String :=
  ((rows.map (fun r => r.region)).dedup).map (fun v => "region_" ++ v) ++
  ((rows.map (fun r => r.difficulty)).dedup).map (fun v => "difficulty_" ++ v) ++
  ((rows.map (fun r => r.season)).dedup).map (fun v => "season_" ++ v) ++
  ((rows.map (fun r => r.day_name)).dedup).map (fun v => "day_name_" ++ v)

/-- Columns of the encoded scoring frame: the kept non-categorical columns
    plus the dummy columns, minus the dropped `date` and `division`. -/
def scoringFrameColumns (rows : List ScoreRow) : List String :=
  ((SCORING_KEEP.filter (fun c => ¬ CAT_COLS.contains c)) ++ dummyColumns rows).filter
    (fun c => c ≠ "date" && c ≠ "division")

/-! ## Forecast clamping (src/ml/predict_2026.py, `predict`) -/

/-- Embedding of the prediction post-processing in `predict`: the raw model
    outputs are clipped at zero (`np.clip(preds, 0, None)`), rounded to 3
    decimals, and rows flagged `is_closed_day == 1` are forced to exactly
    zero.  The raw outputs are an arbitrary list, one per scaffold row. -/
def predictRows (frame : List ScoreRow) (raw : List ℚ) : List (ScoreRow × ℚ) :=
  (frame.zip raw).map (fun p =>
    let clipped := max p.2 0
    let rounded := roundDp 3 clipped
    (p.1, if p.1.is_closed_day = 1 then 0.0 else rounded))

/-! ## Route-day aggregation (src/transform/build_model_tables.py) -/

/-- Row of the booking fact table as read back by `build_route_day` (the
    columns the aggregation uses). -/
structure FactRow where
  booking_id : Int
  date_key : Int
  route_id : Int
  region : String
  party_size : Int
  sales_ex_vat : ℚ
  vat_amount : ℚ
  sales_inc_vat : ℚ
  staff_cost : ℚ
  margin_amount : ℚ
  discount_flag : Int
deriving DecidableEq, Repr, Inhabited

/-- Row of the route-day aggregate produced by the
    `groupby(["date_key","route_id","region"]).agg(...)` step plus the two
    derived rate columns. -/
structure RouteDayRow where
  date_key : Int
  route_id : Int
  region : String
  bookings_count : ℕ
  party_size_total : Int
  party_size_avg : ℚ
  sales_ex_vat : ℚ
  vat_amount : ℚ
  sales_inc_vat : ℚ
  staff_cost : ℚ
  margin_amount : ℚ
  discount_bookings : Int
  discount_rate : ℚ
  margin_pct_weighted : Option ℚ
deriving DecidableEq, Repr, Inhabited

/-- Embedding of the aggregation core of `build_route_day`: one output row
    per distinct `(date_key, route_id, region)` key, aggregating the rows of
    that group; `discount_rate = discount_bookings / bookings_count` and
    `margin_pct_weighted = margin_amount / sales_ex_vat` with a zero
    denominator replaced by NA.  (The subsequent dim_date / dim_route left
    joins and the column reordering leave these aggregate fields of each
    row unchanged.) -/
def build_route_day (fact : List FactRow) : List RouteDayRow :=
  let keys := ((fact.map (fun r => (r.date_key, r.route_id, r.region))).dedup)
  keys.map (fun k =>
    let grp := fact.filter
      (fun r => r.date_key = k.1 && r.route_id = k.2.1 && r.region = k.2.2)
    let n := grp.length
    let disc := (grp.map (fun r => r.discount_flag)).sum
    let sales := (grp.map (fun r => r.sales_ex_vat)).sum
    let marg := (grp.map (fun r => r.margin_amount)).sum
    { date_key := k.1
    , route_id := k.2.1
    , region := k.2.2
    , bookings_count := n
    , party_size_total := (grp.map (fun r => r.party_size)).sum
    , party_size_avg := ((grp.map (fun r => r.party_size)).sum : ℚ) / (n : ℚ)
    , sales_ex_vat := sales
    , vat_amount := (grp.map (fun r => r.vat_amount)).sum
    , sales_inc_vat := (grp.map (fun r => r.sales_inc_vat)).sum
    , staff_cost := (grp.map (fun r => r.staff_cost)).sum
    , margin_amount := marg
    , discount_bookings := disc
    , discount_rate := (disc : ℚ) / (n : ℚ)
    , margin_pct_weighted := if sales = 0 then none else some (marg / sales) })

/-! ## Bank-holiday surrogate key (src/transform/clean_bank_holidays.py) -/

/-- The string key hashed by `build_dim_bank_holiday`:
    `division + "|" + date + "|" + title`. -/
def bankHolidayKey (division date title : String) : String :=
  division ++ "|" ++ date ++ "|" ++ title

/-- Embedding of the surrogate-key derivation
    `abs(hash(s)) % (10**12)`.  Python's builtin `hash` on `str` is salted
    per process (PYTHONHASHSEED), so it is modelled as an explicit
    parameter `pyHash`: each process run supplies its own hash function. -/
def bank_holiday_id (pyHash : String → Int) (division date title : String) : ℕ :=
  (pyHash (bankHolidayKey division date title)).natAbs % (10 ^ 12)

/-! ## Concrete fixtures used by the witness theorems -/

/-- A deterministic RNG implementation: every draw returns a fixed value
    (Poisson draws return 1). -/
def constRng : RNG Unit :=
  { poisson := fun _ _ => (1, ())
  , uniform := fun a _ _ => (a, ())
  , normal := fun m _ _ => (m, ())
  , random := fun _ => (1, ())
  , choice6 := fun _ _ => (0, ())
  , choiceIdx := fun _ _ => (0, ()) }

/-- Like `constRng` but every Poisson draw returns 0. -/
def zeroRng : RNG Unit :=
  { constRng with poisson := fun _ _ => (0, ()) }

/-- One seed route (the spec's scenario route). -/
def testRoutes : List RouteRow :=
  [{ route_id := 1, region := "lake_district", difficulty := "moderate"
   , duration_hours := 6, distance_km := 12 }]

/-- One guide. -/
def testGuides : List GuideRow := [{ guide_id := 101 }]

/-- One open summer Saturday in the 2024–2025 horizon. -/
def testDates : List DateRow :=
  [{ date := ⟨2024, 6, 1⟩, date_key := 20240601, year := 2024, quarter := 2
   , month := 6, iso_week := 22, day_name := "Saturday", is_weekend := true
   , season := "summer"
   , is_bank_holiday_england_wales := false, is_bank_holiday_scotland := false
   , is_bank_holiday_northern_ireland := false, is_bank_holiday_any := false }]

/-- A bank-holiday table with one closing event (Christmas Day 2024). -/
def testBh : List BHRow :=
  [{ date := ⟨2024, 12, 25⟩, division := "england-and-wales", title := "Christmas Day" }]

/-- The static region→division mapping of `build_dim_region_division`. -/
def testRegionDiv : List (String × String) :=
  [ ("lake_district", "england-and-wales")
  , ("peak_district", "england-and-wales")
  , ("wales", "england-and-wales")
  , ("scotland", "scotland") ]

/-- The fact table produced by the generator on the fixtures under
    `constRng` (used by the booking-invariant witnesses). -/
def testFactTable : List Booking :=
  ((generate_fact_bookings constRng () testRoutes testGuides testDates testBh
    testRegionDiv).toOption).getD []

/-- The first (and only) booking of `testFactTable`. -/
def testBooking : Booking := testFactTable.headD default

/-! ## Claims about the key-to-unit hashes (C2, C9) -/

/-- C2: for every string key, `_stable_hash_to_unit` returns a value in
    [0,1) that equals the reference (spec) definition — the 32-bit
    FNV-1a-style rolling hash of the key's UTF-8 bytes, taken modulo
    10,000,000 and divided by 10,000,000 — and it is a pure function of the
    key's bytes: keys with equal UTF-8 encodings hash identically. -/
theorem stable_hash_to_unit_contract :
    (∀ key : String,
      _stable_hash_to_unit key = hash_to_unit_spec key ∧
      0 ≤ _stable_hash_to_unit key ∧ _stable_hash_to_unit key < 1) ∧
    (∀ s1 s2 : String, utf8Bytes s1 = utf8Bytes s2 →
      _stable_hash_to_unit s1 = _stable_hash_to_unit s2) := by
  constructor
  · intro key
    refine ⟨?_, ?_, ?_⟩
    · unfold _stable_hash_to_unit hash_to_unit_spec
      rw [foldl_eq_fnvSpec]
    · unfold _stable_hash_to_unit
      positivity
    · unfold _stable_hash_to_unit
      rw [div_lt_one (by norm_num)]
      exact_mod_cast Nat.mod_lt _ (by norm_num)
  · intro s1 s2 h
    unfold _stable_hash_to_unit
    rw [h]

/-- C2 witness: the byte-purity hypothesis discharged at the key `"abc"`. -/
theorem stable_hash_to_unit_contract_witness :
    utf8Bytes "abc" = utf8Bytes "abc" ∧
    _stable_hash_to_unit "abc" = _stable_hash_to_unit "abc" :=
  ⟨rfl, stable_hash_to_unit_contract.2 "abc" "abc" rfl⟩

/-- C9: the two independently implemented key-to-unit hashes —
    `_stable_hash_to_unit` in src/synth/generate_routes.py and
    `_stable_unit` in src/ml/features_v2.py — are extensionally equal. -/
theorem stable_hash_functions_agree :
    ∀ s : String, _stable_hash_to_unit s = _stable_unit s :=
  fun _ => rfl

/-! ## Claim about the bank-holiday surrogate key (C5)

`build_dim_bank_holiday` computes `abs(hash(s)) % 10**12` with Python's
BUILTIN `hash`, which for `str` is salted per process (PYTHONHASHSEED).
The id therefore depends on the process-specific hash function, not only
on (division, date, title): two processes can assign different ids to the
same event, contradicting the documented determinism. -/

/-- C5: the surrogate key is NOT determined by (division, date, title)
    alone — there exist two (process) hash functions under which the same
    bank-holiday event receives different ids. -/
theorem bank_holiday_id_depends_on_process_hash :
    ∃ h1 h2 : String → Int,
      bank_holiday_id h1 "england-and-wales" "2025-12-25" "Christmas Day" ≠
      bank_holiday_id h2 "england-and-wales" "2025-12-25" "Christmas Day" :=
  ⟨fun _ => 0, fun _ => 1, by decide⟩

/-! ## Claim about the forecast clamping (C8) -/

theorem roundDp_nonneg {n : ℕ} {x : ℚ} (h : 0 ≤ x) : 0 ≤ roundDp n x :=
  le_roundDp_of_le (by norm_num) h

/-- C8: for every scoring frame and every vector of raw model outputs, the
    forecast written by `predict` has only non-negative
    `predicted_bookings_count` values, and rows flagged `is_closed_day = 1`
    get exactly 0, regardless of the raw output. -/
theorem predict_clamps_forecast (frame : List ScoreRow) (raw : List ℚ) :
    ∀ p ∈ predictRows frame raw, 0 ≤ p.2 ∧ (p.1.is_closed_day = 1 → p.2 = 0) := by
  intro p hp
  unfold predictRows at hp
  rw [List.mem_map] at hp
  obtain ⟨q, _, rfl⟩ := hp
  dsimp only
  by_cases hc : q.1.is_closed_day = 1
  · rw [if_pos hc]
    norm_num
  · rw [if_neg hc]
    exact ⟨roundDp_nonneg (le_max_right _ _), fun h => absurd h hc⟩

/-- A scoring row flagged as a closed day (all other fields default). -/
def testClosedScoreRow : ScoreRow := { (default : ScoreRow) with is_closed_day := 1 }

set_option maxRecDepth 100000 in
/-- C8 witness: a closed-day row scored with the raw model output -5 is
    forced to exactly 0. -/
theorem predict_clamps_forecast_witness :
    ((testClosedScoreRow, (0 : ℚ)) ∈ predictRows [testClosedScoreRow] [-5]) ∧
    (0 : ℚ) ≤ (testClosedScoreRow, (0 : ℚ)).2 ∧
    ((testClosedScoreRow, (0 : ℚ)).1.is_closed_day = 1 → (testClosedScoreRow, (0 : ℚ)).2 = 0) := by
  have hmem : (testClosedScoreRow, (0 : ℚ)) ∈ predictRows [testClosedScoreRow] [-5] := by
    rw [show predictRows [testClosedScoreRow] [-5] = [(testClosedScoreRow, 0)] from by
      with_unfolding_all rfl]
    exact List.mem_singleton.mpr rfl
  exact ⟨hmem, (predict_clamps_forecast [testClosedScoreRow] [-5] _ hmem).1,
    (predict_clamps_forecast [testClosedScoreRow] [-5] _ hmem).2⟩

/-! ## Invariants of the booking simulation engine (C1, C3, C4, C6) -/

/-- The per-booking numeric invariants established by `genOneBooking`. -/
def MoneyInv (b : Booking) : Prop :=
  0.30 ≤ b.margin_pct ∧ b.margin_pct ≤ 0.50 ∧
  |b.vat_amount - b.sales_ex_vat * VAT_RATE| ≤ 0.03 ∧
  |b.sales_inc_vat - (b.sales_ex_vat + b.vat_amount)| ≤ 0.03 ∧
  (b.discount_flag = 0 ∨ b.discount_flag = 1)

theorem margin_pct_draw_bounds {σ : Type} (g : RNG σ) (df : Bool) (party : ℕ) (s : σ) :
    0.30 ≤ (_margin_pct g df party s).1 ∧ (_margin_pct g df party s).1 ≤ 0.50 := by
  unfold _margin_pct
  exact ⟨lo_le_clip _ _ _ (by norm_num), clip_le_hi _ _ _⟩

theorem margin_roundDp_bounds {x : ℚ} (h1 : 0.30 ≤ x) (h2 : x ≤ 0.50) :
    0.30 ≤ roundDp 4 x ∧ roundDp 4 x ≤ 0.50 :=
  ⟨le_roundDp_of_le (by norm_num) h1, roundDp_le_of_le (by norm_num) h2⟩

theorem vat_field_close (S : ℚ) :
    |roundDp 2 (S * VAT_RATE) - roundDp 2 S * VAT_RATE| ≤ 0.03 := by
  have hV := abs_roundDp_sub 2 (S * VAT_RATE)
  have hS := abs_roundDp_sub 2 S
  rw [abs_le] at hV hS ⊢
  unfold VAT_RATE at *
  norm_num at hV hS ⊢
  constructor <;> nlinarith [hV.1, hV.2, hS.1, hS.2]

theorem inc_field_close (S : ℚ) :
    |roundDp 2 (S + S * VAT_RATE) - (roundDp 2 S + roundDp 2 (S * VAT_RATE))| ≤ 0.03 := by
  have hV := abs_roundDp_sub 2 (S * VAT_RATE)
  have hS := abs_roundDp_sub 2 S
  have hI := abs_roundDp_sub 2 (S + S * VAT_RATE)
  rw [abs_le] at hV hS hI ⊢
  unfold VAT_RATE at *
  norm_num at hV hS hI ⊢
  constructor <;> nlinarith [hV.1, hV.2, hS.1, hS.2, hI.1, hI.2]

theorem genOneBooking_ok {σ : Type} (g : RNG σ) (guide_ids : List Int) (route_id : Int)
    (region difficulty : String) (duration_hours : ℚ) (dt : Date) (season : String)
    (is_weekend is_bh : Bool) (division : String) (booking_id : ℕ) (s : σ)
    {b : Booking} {s2 : σ}
    (h : genOneBooking g guide_ids route_id region difficulty duration_hours dt season
      is_weekend is_bh division booking_id s = Except.ok (b, s2)) :
    b.booking_date = dt ∧ b.region = region ∧ b.holiday_division = division ∧ MoneyInv b := by
  cases guide_ids with
  | nil =>
    simp only [genOneBooking, pickGuide] at h
    exact Except.noConfusion h
  | cons x xs =>
    simp only [genOneBooking, pickGuide] at h
    rw [Except.ok.injEq, Prod.mk.injEq] at h
    obtain ⟨hb, _⟩ := h
    subst hb
    refine ⟨rfl, rfl, rfl, ?_, ?_, ?_, ?_, ?_⟩
    · exact (margin_roundDp_bounds (margin_pct_draw_bounds g _ _ _).1
        (margin_pct_draw_bounds g _ _ _).2).1
    · exact (margin_roundDp_bounds (margin_pct_draw_bounds g _ _ _).1
        (margin_pct_draw_bounds g _ _ _).2).2
    · exact vat_field_close _
    · exact inc_field_close _
    · split
      · right; rfl
      · left; rfl

theorem genBookingsN_ok {σ : Type} (g : RNG σ) (guide_ids : List Int) (route_id : Int)
    (region difficulty : String) (duration_hours : ℚ) (dt : Date) (season : String)
    (is_weekend is_bh : Bool) (division : String) :
    ∀ (n booking_id : ℕ) (s : σ) (out : List Booking) (r : ℕ × σ),
    genBookingsN g guide_ids route_id region difficulty duration_hours dt season
      is_weekend is_bh division n booking_id s = Except.ok (out, r) →
    ∀ b ∈ out,
      b.booking_date = dt ∧ b.region = region ∧ b.holiday_division = division ∧ MoneyInv b := by
  intro n
  induction n with
  | zero =>
    intro bid s out r h b hb
    simp only [genBookingsN, Except.ok.injEq, Prod.mk.injEq] at h
    rw [← h.1] at hb
    cases hb
  | succ k ih =>
    intro bid s out r h b hb
    rw [genBookingsN] at h
    split at h
    · exact absurd h (by simp)
    · rename_i bs heq1
      split at h
      · exact absurd h (by simp)
      · rename_i rest heq2
        rw [Except.ok.injEq, Prod.mk.injEq] at h
        rw [← h.1] at hb
        rcases List.mem_cons.mp hb with hhd | htl
        · subst hhd
          exact genOneBooking_ok g guide_ids route_id region difficulty duration_hours dt
            season is_weekend is_bh division bid s heq1
        · exact ih (bid + 1) bs.2 rest.1 rest.2 heq2 b htl

theorem processRouteDay_ok {σ : Type} (g : RNG σ) (guide_ids : List Int) (route_id : Int)
    (region difficulty : String) (duration_hours : ℚ) (division : String)
    (closed_dates : List Date) (d : DateRow) (booking_id : ℕ) (s : σ)
    (out : List Booking) (r : ℕ × σ)
    (h : processRouteDay g guide_ids route_id region difficulty duration_hours division
      closed_dates d booking_id s = Except.ok (out, r)) :
    ∀ b ∈ out,
      b.booking_date ∉ closed_dates ∧ b.region = region ∧ b.holiday_division = division ∧
      MoneyInv b := by
  intro b hb
  simp only [processRouteDay] at h
  split at h
  · rw [Except.ok.injEq, Prod.mk.injEq] at h
    rw [← h.1] at hb
    cases hb
  · rename_i hclosed
    split at h
    · rw [Except.ok.injEq, Prod.mk.injEq] at h
      rw [← h.1] at hb
      cases hb
    · have hall := genBookingsN_ok g guide_ids route_id region difficulty duration_hours
        d.date d.season d.is_weekend _ division _ _ _ _ _ h b hb
      exact ⟨hall.1 ▸ hclosed, hall.2.1, hall.2.2⟩

theorem processRouteDays_ok {σ : Type} (g : RNG σ) (guide_ids : List Int) (route_id : Int)
    (region difficulty : String) (duration_hours : ℚ) (division : String)
    (closed_dates : List Date) :
    ∀ (dates : List DateRow) (booking_id : ℕ) (s : σ) (out : List Booking) (r : ℕ × σ),
    processRouteDays g guide_ids route_id region difficulty duration_hours division
      closed_dates dates booking_id s = Except.ok (out, r) →
    ∀ b ∈ out,
      b.booking_date ∉ closed_dates ∧ b.region = region ∧ b.holiday_division = division ∧
      MoneyInv b := by
  intro dates
  induction dates with
  | nil =>
    intro bid s out r h b hb
    simp only [processRouteDays, Except.ok.injEq, Prod.mk.injEq] at h
    rw [← h.1] at hb
    cases hb
  | cons d ds ih =>
    intro bid s out r h b hb
    rw [processRouteDays] at h
    split at h
    · exact absurd h (by simp)
    · rename_i r1 heq1
      split at h
      · exact absurd h (by simp)
      · rename_i r2 heq2
        rw [Except.ok.injEq, Prod.mk.injEq] at h
        rw [← h.1] at hb
        rcases List.mem_append.mp hb with h1 | h2
        · exact processRouteDay_ok g guide_ids route_id region difficulty duration_hours
            division closed_dates d bid s r1.1 r1.2 heq1 b h1
        · exact ih r1.2.1 r1.2.2 r2.1 r2.2 heq2 b h2

theorem processRoutes_ok {σ : Type} (g : RNG σ) (guide_ids : List Int)
    (region_div : List (String × String)) (bh : List BHRow) (dates : List DateRow) :
    ∀ (routes : List RouteRow) (booking_id : ℕ) (s : σ) (out : List Booking) (r : ℕ × σ),
    processRoutes g guide_ids region_div bh dates routes booking_id s = Except.ok (out, r) →
    ∀ b ∈ out,
      b.booking_date ∉ closedDatesForDivision bh (regionToDivision region_div b.region) ∧
      b.holiday_division = regionToDivision region_div b.region ∧ MoneyInv b := by
  intro routes
  induction routes with
  | nil =>
    intro bid s out r h b hb
    simp only [processRoutes, Except.ok.injEq, Prod.mk.injEq] at h
    rw [← h.1] at hb
    cases hb
  | cons rt rts ih =>
    intro bid s out r h b hb
    rw [processRoutes] at h
    split at h
    · exact absurd h (by simp)
    · rename_i r1 heq1
      split at h
      · exact absurd h (by simp)
      · rename_i r2 heq2
        rw [Except.ok.injEq, Prod.mk.injEq] at h
        rw [← h.1] at hb
        rcases List.mem_append.mp hb with h1 | h2
        · have hall := processRouteDays_ok g guide_ids rt.route_id rt.region rt.difficulty
            rt.duration_hours (regionToDivision region_div rt.region)
            (closedDatesForDivision bh (regionToDivision region_div rt.region))
            dates bid s r1.1 r1.2 heq1 b h1
          rw [hall.2.1]
          exact ⟨hall.1, hall.2.2.1, hall.2.2.2⟩
        · exact ih r1.2.1 r1.2.2 r2.1 r2.2 heq2 b h2

/-- Master invariant of the generated fact table: every emitted booking is
    outside its route's division closed-day set and satisfies the numeric
    invariants. -/
theorem generate_fact_bookings_inv {σ : Type} (g : RNG σ) (s0 : σ) (routes : List RouteRow)
    (guides : List GuideRow) (dates_all : List DateRow) (bh : List BHRow)
    (region_div : List (String × String)) (out : List Booking)
    (h : generate_fact_bookings g s0 routes guides dates_all bh region_div = Except.ok out) :
    ∀ b ∈ out,
      b.booking_date ∉ closedDatesForDivision bh (regionToDivision region_div b.region) ∧
      b.holiday_division = regionToDivision region_div b.region ∧ MoneyInv b := by
  intro b hb
  simp only [generate_fact_bookings] at h
  split at h
  · exact absurd h (by simp)
  · rename_i r heq
    rw [Except.ok.injEq] at h
    rw [← h] at hb
    exact processRoutes_ok g _ region_div bh _ routes 1 s0 r.1 r.2 heq b hb

theorem headD_mem {α : Type} (l : List α) (d : α) (h : l ≠ []) : l.headD d ∈ l := by
  cases l with
  | nil => exact absurd rfl h
  | cons x xs => exact List.mem_cons_self x xs

/-- C1: every booking emitted by `generate_fact_bookings` — for any RNG
    behaviour and any input tables — has a `booking_date` outside the
    closed-day set of the division resolved for its route (its region mapped
    through the region→division table, defaulting to england-and-wales). -/
theorem closure_invariant {σ : Type} (g : RNG σ) (s0 : σ) (routes : List RouteRow)
    (guides : List GuideRow) (dates_all : List DateRow) (bh : List BHRow)
    (region_div : List (String × String)) (out : List Booking)
    (h : generate_fact_bookings g s0 routes guides dates_all bh region_div = Except.ok out) :
    ∀ b ∈ out,
      b.booking_date ∉ closedDatesForDivision bh (regionToDivision region_div b.region) :=
  fun b hb => (generate_fact_bookings_inv g s0 routes guides dates_all bh region_div out h b hb).1

set_option maxRecDepth 100000 in
/-- C1 witness: the fixture run emits one booking; its date (2024-06-01) is
    not in the closed-day set of its division. -/
theorem closure_invariant_witness :
    (generate_fact_bookings constRng () testRoutes testGuides testDates testBh testRegionDiv
      = Except.ok testFactTable) ∧
    testBooking ∈ testFactTable ∧
    testBooking.booking_date ∉
      closedDatesForDivision testBh (regionToDivision testRegionDiv testBooking.region) := by
  have hgen : generate_fact_bookings constRng () testRoutes testGuides testDates testBh
      testRegionDiv = Except.ok testFactTable := by with_unfolding_all rfl
  have hne : testFactTable ≠ [] := by
    have hlen : testFactTable.length = 1 := by with_unfolding_all rfl
    intro hnil
    rw [hnil] at hlen
    cases hlen
  exact ⟨hgen, headD_mem _ _ hne,
    closure_invariant constRng () testRoutes testGuides testDates testBh testRegionDiv
      testFactTable hgen testBooking (headD_mem _ _ hne)⟩

/-- C3: every booking emitted by `generate_fact_bookings` has its stored
    (4-decimal-rounded) `margin_pct` in [0.30, 0.50], for any RNG behaviour
    and any inputs. -/
theorem margin_pct_bound {σ : Type} (g : RNG σ) (s0 : σ) (routes : List RouteRow)
    (guides : List GuideRow) (dates_all : List DateRow) (bh : List BHRow)
    (region_div : List (String × String)) (out : List Booking)
    (h : generate_fact_bookings g s0 routes guides dates_all bh region_div = Except.ok out) :
    ∀ b ∈ out, 0.30 ≤ b.margin_pct ∧ b.margin_pct ≤ 0.50 :=
  fun b hb =>
    ⟨(generate_fact_bookings_inv g s0 routes guides dates_all bh region_div out h b hb).2.2.1,
     (generate_fact_bookings_inv g s0 routes guides dates_all bh region_div out h b hb).2.2.2.1⟩

set_option maxRecDepth 100000 in
/-- C3 witness: the fixture booking's margin_pct (0.30) is inside the
    bounds. -/
theorem margin_pct_bound_witness :
    (generate_fact_bookings constRng () testRoutes testGuides testDates testBh testRegionDiv
      = Except.ok testFactTable) ∧
    testBooking ∈ testFactTable ∧
    0.30 ≤ testBooking.margin_pct ∧ testBooking.margin_pct ≤ 0.50 := by
  have hgen : generate_fact_bookings constRng () testRoutes testGuides testDates testBh
      testRegionDiv = Except.ok testFactTable := by with_unfolding_all rfl
  have hne : testFactTable ≠ [] := by
    have hlen : testFactTable.length = 1 := by with_unfolding_all rfl
    intro hnil
    rw [hnil] at hlen
    cases hlen
  exact ⟨hgen, headD_mem _ _ hne,
    margin_pct_bound constRng () testRoutes testGuides testDates testBh testRegionDiv
      testFactTable hgen testBooking (headD_mem _ _ hne)⟩

/-- C4: every booking emitted by `generate_fact_bookings` satisfies the
    VAT identities on its stored (2-decimal-rounded) monetary fields with
    tolerance 0.03, for any RNG behaviour and any inputs. -/
theorem vat_identity {σ : Type} (g : RNG σ) (s0 : σ) (routes : List RouteRow)
    (guides : List GuideRow) (dates_all : List DateRow) (bh : List BHRow)
    (region_div : List (String × String)) (out : List Booking)
    (h : generate_fact_bookings g s0 routes guides dates_all bh region_div = Except.ok out) :
    ∀ b ∈ out,
      |b.vat_amount - b.sales_ex_vat * VAT_RATE| ≤ 0.03 ∧
      |b.sales_inc_vat - (b.sales_ex_vat + b.vat_amount)| ≤ 0.03 :=
  fun b hb =>
    ⟨(generate_fact_bookings_inv g s0 routes guides dates_all bh region_div out h b
        hb).2.2.2.2.1,
     (generate_fact_bookings_inv g s0 routes guides dates_all bh region_div out h b
        hb).2.2.2.2.2.1⟩

set_option maxRecDepth 100000 in
/-- C4 witness: the fixture booking's stored vat/sales/inc fields satisfy
    the tolerance identities. -/
theorem vat_identity_witness :
    (generate_fact_bookings constRng () testRoutes testGuides testDates testBh testRegionDiv
      = Except.ok testFactTable) ∧
    testBooking ∈ testFactTable ∧
    |testBooking.vat_amount - testBooking.sales_ex_vat * VAT_RATE| ≤ 0.03 ∧
    |testBooking.sales_inc_vat - (testBooking.sales_ex_vat + testBooking.vat_amount)| ≤ 0.03 := by
  have hgen : generate_fact_bookings constRng () testRoutes testGuides testDates testBh
      testRegionDiv = Except.ok testFactTable := by with_unfolding_all rfl
  have hne : testFactTable ≠ [] := by
    have hlen : testFactTable.length = 1 := by with_unfolding_all rfl
    intro hnil
    rw [hnil] at hlen
    cases hlen
  exact ⟨hgen, headD_mem _ _ hne,
    vat_identity constRng () testRoutes testGuides testDates testBh testRegionDiv
      testFactTable hgen testBooking (headD_mem _ _ hne)⟩

/-! ## Empty guide roster (C6)

The claim says the engine cannot fail and yields an empty fact table when
the guide table is empty.  In the code, `rng.choice(guide_ids)` raises
`ValueError: a cannot be empty` as soon as any open route-day draws a
positive Poisson count, so the claim fails; what does hold is that IF the
run completes, the fact table is empty. -/

theorem genOneBooking_no_guides {σ : Type} (g : RNG σ) (route_id : Int)
    (region difficulty : String) (duration_hours : ℚ) (dt : Date) (season : String)
    (is_weekend is_bh : Bool) (division : String) (booking_id : ℕ) (s : σ) :
    genOneBooking g [] route_id region difficulty duration_hours dt season
      is_weekend is_bh division booking_id s = Except.error "a cannot be empty" := by
  simp only [genOneBooking, pickGuide]

theorem genBookingsN_no_guides {σ : Type} (g : RNG σ) (route_id : Int)
    (region difficulty : String) (duration_hours : ℚ) (dt : Date) (season : String)
    (is_weekend is_bh : Bool) (division : String) (n booking_id : ℕ) (s : σ)
    (out : List Booking) (r : ℕ × σ)
    (h : genBookingsN g [] route_id region difficulty duration_hours dt season
      is_weekend is_bh division n booking_id s = Except.ok (out, r)) : out = [] := by
  cases n with
  | zero =>
    simp only [genBookingsN, Except.ok.injEq, Prod.mk.injEq] at h
    exact h.1.symm
  | succ k =>
    rw [genBookingsN, genOneBooking_no_guides] at h
    exact Except.noConfusion h

theorem processRouteDay_no_guides {σ : Type} (g : RNG σ) (route_id : Int)
    (region difficulty : String) (duration_hours : ℚ) (division : String)
    (closed_dates : List Date) (d : DateRow) (booking_id : ℕ) (s : σ)
    (out : List Booking) (r : ℕ × σ)
    (h : processRouteDay g [] route_id region difficulty duration_hours division
      closed_dates d booking_id s = Except.ok (out, r)) : out = [] := by
  simp only [processRouteDay] at h
  split at h
  · rw [Except.ok.injEq, Prod.mk.injEq] at h
    exact h.1.symm
  · split at h
    · rw [Except.ok.injEq, Prod.mk.injEq] at h
      exact h.1.symm
    · exact genBookingsN_no_guides g route_id region difficulty duration_hours d.date
        d.season d.is_weekend _ division _ _ _ _ _ h

theorem processRouteDays_no_guides {σ : Type} (g : RNG σ) (route_id : Int)
    (region difficulty : String) (duration_hours : ℚ) (division : String)
    (closed_dates : List Date) :
    ∀ (dates : List DateRow) (booking_id : ℕ) (s : σ) (out : List Booking) (r : ℕ × σ),
    processRouteDays g [] route_id region difficulty duration_hours division
      closed_dates dates booking_id s = Except.ok (out, r) → out = [] := by
  intro dates
  induction dates with
  | nil =>
    intro bid s out r h
    simp only [processRouteDays, Except.ok.injEq, Prod.mk.injEq] at h
    exact h.1.symm
  | cons d ds ih =>
    intro bid s out r h
    rw [processRouteDays] at h
    split at h
    · exact absurd h (by simp)
    · rename_i r1 heq1
      split at h
      · exact absurd h (by simp)
      · rename_i r2 heq2
        rw [Except.ok.injEq, Prod.mk.injEq] at h
        rw [← h.1, processRouteDay_no_guides g route_id region difficulty duration_hours
          division closed_dates d bid s r1.1 r1.2 heq1, ih r1.2.1 r1.2.2 r2.1 r2.2 heq2]
        rfl

theorem processRoutes_no_guides {σ : Type} (g : RNG σ)
    (region_div : List (String × String)) (bh : List BHRow) (dates : List DateRow) :
    ∀ (routes : List RouteRow) (booking_id : ℕ) (s : σ) (out : List Booking) (r : ℕ × σ),
    processRoutes g [] region_div bh dates routes booking_id s = Except.ok (out, r) →
    out = [] := by
  intro routes
  induction routes with
  | nil =>
    intro bid s out r h
    simp only [processRoutes, Except.ok.injEq, Prod.mk.injEq] at h
    exact h.1.symm
  | cons rt rts ih =>
    intro bid s out r h
    rw [processRoutes] at h
    split at h
    · exact absurd h (by simp)
    · rename_i r1 heq1
      split at h
      · exact absurd h (by simp)
      · rename_i r2 heq2
        rw [Except.ok.injEq, Prod.mk.injEq] at h
        rw [← h.1, processRouteDays_no_guides g rt.route_id rt.region rt.difficulty
          rt.duration_hours _ _ dates bid s r1.1 r1.2 heq1, ih r1.2.1 r1.2.2 r2.1 r2.2 heq2]
        rfl

set_option maxRecDepth 100000 in
/-- C6 counterexample: with a non-empty route table, a non-empty date table
    and an EMPTY guide table, a Poisson draw of 1 on the open route-day
    makes `generate_fact_bookings` fail (numpy `rng.choice` on the empty
    guide list), instead of completing with an empty fact table. -/
theorem empty_guides_can_fail :
    generate_fact_bookings constRng () testRoutes [] testDates testBh testRegionDiv
      = Except.error "a cannot be empty" := by
  with_unfolding_all rfl

/-- C6 amended: with an empty guide table the engine completes only when
    every open route-day draws a zero Poisson count, and in that case —
    indeed, whenever it completes at all — the fact table is empty. -/
theorem empty_guides_ok_is_empty {σ : Type} (g : RNG σ) (s0 : σ) (routes : List RouteRow)
    (dates_all : List DateRow) (bh : List BHRow) (region_div : List (String × String))
    (out : List Booking)
    (h : generate_fact_bookings g s0 routes [] dates_all bh region_div = Except.ok out) :
    out = [] := by
  simp only [generate_fact_bookings, List.map_nil] at h
  split at h
  · exact Except.noConfusion h
  · rename_i r heq
    rw [Except.ok.injEq] at h
    rw [← h]
    exact processRoutes_no_guides g region_div bh _ routes 1 s0 r.1 r.2 heq

set_option maxRecDepth 100000 in
/-- C6 amended witness: under the all-zero-Poisson RNG the empty-guides run
    completes with an empty fact table. -/
theorem empty_guides_ok_is_empty_witness :
    (generate_fact_bookings zeroRng () testRoutes [] testDates testBh testRegionDiv
      = Except.ok []) ∧ ([] : List Booking) = [] := by
  have hgen : generate_fact_bookings zeroRng () testRoutes [] testDates testBh testRegionDiv
      = Except.ok [] := by with_unfolding_all rfl
  exact ⟨hgen, empty_guides_ok_is_empty zeroRng () testRoutes testDates testBh
    testRegionDiv [] hgen⟩

/-! ## Scaffold density and target absence (C7) -/

theorem length_cross (d26 : List DateRow) (routes : List RouteRow) :
    (crossDatesRoutes d26 routes).length = d26.length * routes.length := by
  unfold crossDatesRoutes
  induction d26 with
  | nil => simp
  | cons d ds ih =>
    simp only [List.flatMap_cons, List.length_append, List.length_map, List.length_cons, ih]
    ring

theorem count_matches_le_one (rd : List (String × String))
    (h : (rd.map Prod.fst).Nodup) (x : String) :
    (rd.filter (fun m => m.1 = x)).length ≤ 1 := by
  induction rd with
  | nil => simp
  | cons a as ih =>
    rw [List.map_cons, List.nodup_cons] at h
    by_cases hax : a.1 = x
    · rw [List.filter_cons_of_pos (by simpa using hax)]
      have hnone : as.filter (fun m => decide (m.1 = x)) = [] := by
        rw [List.filter_eq_nil_iff]
        intro m hm
        simp only [decide_eq_true_eq]
        intro hmx
        exact h.1 (by
          rw [hax, ← hmx]
          exact List.mem_map_of_mem Prod.fst hm)
      simp [hnone]
    · rw [List.filter_cons_of_neg (by simpa using hax)]
      exact ih h.2

theorem length_leftMerge (base : List (DateRow × RouteRow))
    (region_div : List (String × String)) (h : (region_div.map Prod.fst).Nodup) :
    (leftMergeDivision base region_div).length = base.length := by
  unfold leftMergeDivision
  induction base with
  | nil => rfl
  | cons p ps ih =>
    rw [List.flatMap_cons, List.length_append, ih]
    have hle := count_matches_le_one region_div h p.2.region
    by_cases he : (region_div.filter (fun m => m.1 = p.2.region)).isEmpty
    · rw [if_pos he]
      simp [Nat.add_comm]
    · rw [if_neg he, List.length_map, List.length_cons]
      have hne : (region_div.filter (fun m => m.1 = p.2.region)).length ≠ 0 := by
        intro h0
        exact he (List.isEmpty_iff_length_eq_zero.mpr h0)
      omega

theorem data_append_eq (a b : String) : (a ++ b).data = a.data ++ b.data := by
  cases a
  cases b
  rfl

theorem append_ne_of_head {p v t : String} {c c2 : Char} {cs cs2 : List Char}
    (hp : p.data = c :: cs) (ht : t.data = c2 :: cs2) (hne : c ≠ c2) : p ++ v ≠ t := by
  intro h
  have h2 : p.data ++ v.data = t.data := by rw [← data_append_eq, h]
  rw [hp, ht, List.cons_append] at h2
  exact hne (List.cons.inj h2).1

theorem no_target_column (rows : List ScoreRow) :
    "bookings_count" ∉ scoringFrameColumns rows := by
  unfold scoringFrameColumns
  intro hmem
  rw [List.mem_filter] at hmem
  obtain ⟨hmem, _⟩ := hmem
  rw [List.mem_append] at hmem
  rcases hmem with hkeep | hdummy
  · revert hkeep
    decide
  · unfold dummyColumns at hdummy
    rw [List.mem_append, List.mem_append, List.mem_append] at hdummy
    rcases hdummy with ((h | h) | h) | h <;>
      · rw [List.mem_map] at h
        obtain ⟨v, _, hv⟩ := h
        revert hv
        exact append_ne_of_head rfl rfl (by decide)

/-- C7: for a non-empty route dimension and a non-empty set of 2026
    calendar rows (and the region→division mapping keyed uniquely, as the
    static mapping is), the 2026 scoring frame has exactly
    `|dates in 2026| * |routes|` rows and no `bookings_count` column. -/
theorem scoring_scaffold_density (dim_date : List DateRow) (dim_route : List RouteRow)
    (region_div : List (String × String)) (bh : List BHRow)
    (h1 : dates2026 dim_date ≠ []) (h2 : dim_route ≠ [])
    (hnd : (region_div.map Prod.fst).Nodup) :
    (build_scoring_frame_2026 dim_date dim_route region_div bh).length
      = (dates2026 dim_date).length * dim_route.length ∧
    "bookings_count" ∉ scoringFrameColumns
      (build_scoring_frame_2026 dim_date dim_route region_div bh) := by
  constructor
  · unfold build_scoring_frame_2026
    rw [List.length_map, length_leftMerge _ _ hnd, length_cross]
  · exact no_target_column _

/-- One 2026 calendar row for the C7 witness. -/
def testDates26 : List DateRow :=
  [{ date := ⟨2026, 1, 2⟩, date_key := 20260102, year := 2026, quarter := 1
   , month := 1, iso_week := 1, day_name := "Friday", is_weekend := false
   , season := "winter"
   , is_bank_holiday_england_wales := false, is_bank_holiday_scotland := false
   , is_bank_holiday_northern_ireland := false, is_bank_holiday_any := false }]

/-- C7 witness: the fixture scaffold (1 date × 1 route) has exactly one row
    and no target column. -/
theorem scoring_scaffold_density_witness :
    (build_scoring_frame_2026 testDates26 testRoutes testRegionDiv testBh).length
      = (dates2026 testDates26).length * testRoutes.length ∧
    "bookings_count" ∉ scoringFrameColumns
      (build_scoring_frame_2026 testDates26 testRoutes testRegionDiv testBh) :=
  scoring_scaffold_density testDates26 testRoutes testRegionDiv testBh
    (by decide) (by decide) (by decide)

/-! ## Route-day aggregate safety (C10) -/

theorem sum_flags_bounds (l : List Int) (h : ∀ x ∈ l, x = 0 ∨ x = 1) :
    0 ≤ l.sum ∧ l.sum ≤ (l.length : Int) := by
  induction l with
  | nil => simp
  | cons a as ih =>
    have ha := h a (List.mem_cons_self a as)
    have hih := ih (fun x hx => h x (List.mem_cons_of_mem a hx))
    rw [List.sum_cons, List.length_cons]
    push_cast
    rcases ha with ha | ha <;> rw [ha] <;> constructor <;> linarith [hih.1, hih.2]

/-- C10: in the route-day aggregate every group-by group contains at least
    one booking, so `bookings_count ≥ 1` and the unguarded division
    `discount_rate = discount_bookings / bookings_count` never divides by
    zero and — for a booking fact table, whose `discount_flag` values are
    0/1 — lands in [0, 1]. -/
theorem route_day_rate_safe (fact : List FactRow)
    (hflags : ∀ x ∈ fact, x.discount_flag = 0 ∨ x.discount_flag = 1) :
    ∀ row ∈ build_route_day fact,
      1 ≤ row.bookings_count ∧ 0 ≤ row.discount_rate ∧ row.discount_rate ≤ 1 := by
  intro row hrow
  unfold build_route_day at hrow
  rw [List.mem_map] at hrow
  obtain ⟨k, hk, hrowEq⟩ := hrow
  have hkmem := List.mem_dedup.mp hk
  rw [List.mem_map] at hkmem
  obtain ⟨r0, hr0, hkey⟩ := hkmem
  have hgrp : r0 ∈ fact.filter
      (fun r => r.date_key = k.1 && r.route_id = k.2.1 && r.region = k.2.2) := by
    rw [List.mem_filter]
    refine ⟨hr0, ?_⟩
    rw [← hkey]
    simp
  have hpos : 0 < (fact.filter
      (fun r => r.date_key = k.1 && r.route_id = k.2.1 && r.region = k.2.2)).length :=
    List.length_pos.mpr (List.ne_nil_of_mem hgrp)
  have hsub : ∀ x ∈ (fact.filter
      (fun r => r.date_key = k.1 && r.route_id = k.2.1 && r.region = k.2.2)).map
        (fun r => r.discount_flag), x = 0 ∨ x = 1 := by
    intro x hx
    rw [List.mem_map] at hx
    obtain ⟨y, hy, hyx⟩ := hx
    rw [← hyx]
    exact hflags y (List.mem_filter.mp hy).1
  have hb := sum_flags_bounds _ hsub
  rw [List.length_map] at hb
  rw [← hrowEq]
  refine ⟨hpos, ?_, ?_⟩
  · exact div_nonneg (by exact_mod_cast hb.1) (by positivity)
  · rw [div_le_one (by exact_mod_cast hpos)]
    exact_mod_cast hb.2

/-- A one-row booking fact table for the C10 witness. -/
def testFactRows : List FactRow :=
  [{ booking_id := 1, date_key := 20240601, route_id := 1, region := "lake_district"
   , party_size := 2, sales_ex_vat := 100, vat_amount := 20, sales_inc_vat := 120
   , staff_cost := 30, margin_amount := 40, discount_flag := 1 }]

/-- The single aggregate row it produces. -/
def testRouteDayRow : RouteDayRow := (build_route_day testFactRows).headD default

set_option maxRecDepth 100000 in
/-- C10 witness: the fixture aggregate row has one booking and a discount
    rate of 1, inside [0, 1]. -/
theorem route_day_rate_safe_witness :
    (∀ x ∈ testFactRows, x.discount_flag = 0 ∨ x.discount_flag = 1) ∧
    testRouteDayRow ∈ build_route_day testFactRows ∧
    1 ≤ testRouteDayRow.bookings_count ∧
    0 ≤ testRouteDayRow.discount_rate ∧ testRouteDayRow.discount_rate ≤ 1 := by
  have hne : build_route_day testFactRows ≠ [] := by
    have hlen : (build_route_day testFactRows).length = 1 := by with_unfolding_all rfl
    intro hnil
    rw [hnil] at hlen
    cases hlen
  exact ⟨by decide, headD_mem _ _ hne,
    route_day_rate_safe testFactRows (by decide) testRouteDayRow (headD_mem _ _ hne)⟩

end UkTours
